import Mathlib

/-!
Verification of the authentication and authorization core of the
FastAPI-TitanicData repository (stages 4-Securisation-api and
5-Documentation-et-tests), as a shallow embedding in Lean 4.

Embedded modules:
- auth/jwt_handler.py   : password hashing (passlib bcrypt), JWT encode/decode (python-jose)
- auth/auth_service.py  : create_user, login, get_current_user
- auth/dependencies.py  : the gate chain get_current_user / get_current_active_user /
                          require_admin / require_user_or_admin (stage 4; stage 5 re-exports it)
- api/auth_routes.py    : the register/login boundary mapping exceptions to statuses

Modelling conventions:
- The clock is explicit: functions that read datetime.utcnow() take a `now : Int`
  (epoch seconds, UTC). create_access_token calls utcnow() twice in the source
  (for exp and iat); the two reads are modelled as the same instant.
- The SQLAlchemy session is modelled as an explicit store `Db` passed and returned.
- Python exceptions are modelled with Except; an uncaught exception propagates
  as the .error branch.
-/

/-- A password-hash string, as classified by passlib. Passlib identifies a hash
by its modular-crypt prefix; `bcrypt salt pw` stands for a well-formed bcrypt
string whose embedded salt is `salt` and whose digest was computed from `pw`
(bcrypt is modelled as a collision-free keyed digest: two digests under the
same salt agree exactly when the passwords agree). `raw s` is any other string,
not recognizable as a configured hash scheme. -/
inductive HashStr where
  | bcrypt (salt : String) (pw : String)
  | raw (s : String)
deriving DecidableEq, Repr

/-- Model of passlib: CryptContext(schemes=[bcrypt]).hash(password).
The salt is drawn from OS randomness; it is passed explicitly here. -/
def cryptContextHash (salt password : String) : HashStr :=
  HashStr.bcrypt salt password

/-- Model of passlib: CryptContext.verify(plain, hash). Per the passlib
documentation, verify raises UnknownHashError ("hash could not be identified")
when the hash string is not a recognizable hash of any configured scheme;
for a well-formed bcrypt hash it recomputes the digest with the embedded salt
and compares, returning a Bool. The .error branch models the raised exception
(its message). -/
def cryptContextVerify (plain : String) (hashed : HashStr) : Except String Bool :=
  match hashed with
  | HashStr.bcrypt _ pw => Except.ok (plain == pw)
  | HashStr.raw _ => Except.error "hash could not be identified"

namespace JWTHandler

/-- jwt_handler.py: SECRET_KEY. -/
def SECRET_KEY : String := "votre_cle_secrete_super_securisee_123456789"

/-- jwt_handler.py: ALGORITHM. -/
def ALGORITHM : String := "HS256"

/-- jwt_handler.py: ACCESS_TOKEN_EXPIRE_MINUTES. -/
def ACCESS_TOKEN_EXPIRE_MINUTES : Int := 30

/-- JWTHandler.hash_password: delegates to pwd_context.hash. -/
def hash_password (salt : String) (password : String) : HashStr :=
  cryptContextHash salt password

/-- JWTHandler.verify_password: delegates to pwd_context.verify, with no
try/except, so a passlib UnknownHashError propagates to the caller. -/
def verify_password (plain_password : String) (hashed_password : HashStr) :
    Except String Bool :=
  cryptContextVerify plain_password hashed_password

end JWTHandler

/-- The claim set carried by a JWT payload. Each field is optional because
decode is applied to arbitrary tokens, whose payloads may lack any claim;
payload.get(k) yields None for a missing key. Timestamps are epoch seconds. -/
structure JwtPayload where
  user_id : Option Int
  email : Option String
  role : Option String
  exp : Option Int
  iat : Option Int
deriving DecidableEq, Repr

/-- A token string on the wire, viewed through what jose.jwt.decode can observe
of it: whether it is structurally a three-part JWT, the key that signed it
(signature verification succeeds exactly when it equals the decoding key),
the algorithm of its header, and its payload. -/
structure JwtToken where
  payload : JwtPayload
  secret : String
  alg : String
  wellFormed : Bool
deriving DecidableEq, Repr

/-- Errors raised by jose.jwt.decode; all are subclasses of JWTError. -/
inductive JWTError where
  | malformed
  | badSignature
  | badAlgorithm
  | expiredSignature
deriving DecidableEq, Repr

/-- Model of jose.jwt.decode(token, key, algorithms=[alg]): fails on a
structurally malformed token, a wrong algorithm, or a bad signature; with
default options it also verifies the exp claim when present, raising
ExpiredSignatureError when exp is earlier than the current time. -/
def joseDecode (now : Int) (token : JwtToken) (key : String) (alg : String) :
    Except JWTError JwtPayload :=
  if !token.wellFormed then Except.error JWTError.malformed
  else if token.alg != alg then Except.error JWTError.badAlgorithm
  else if token.secret != key then Except.error JWTError.badSignature
  else
    match token.payload.exp with
    | some e => if e < now then Except.error JWTError.expiredSignature
                else Except.ok token.payload
    | none => Except.ok token.payload

/-- schemas/auth.py TokenData: the dict returned by decode_token, holding
exactly the keys user_id, email and role. -/
structure TokenData where
  user_id : Option Int
  email : Option String
  role : Option String
deriving DecidableEq, Repr

/-- Python truthiness of the int bound to `exp` in `if exp and ...`. -/
def pyTruthy (e : Int) : Bool := e != 0

namespace JWTHandler

/-- JWTHandler.create_access_token: payload with exp = now + 30 minutes and
iat = now, signed with SECRET_KEY using HS256. -/
def create_access_token (now : Int) (user_id : Int) (email : String) (role : String) :
    JwtToken :=
  { payload := { user_id := some user_id, email := some email, role := some role,
                 exp := some (now + ACCESS_TOKEN_EXPIRE_MINUTES * 60),
                 iat := some now },
    secret := SECRET_KEY, alg := ALGORITHM, wellFormed := true }

/-- JWTHandler.decode_token: jose decode under SECRET_KEY/HS256; on JWTError
returns None; otherwise re-checks expiry (`if exp and utcnow() > exp`) and
returns a dict with exactly user_id, email and role (iat and exp dropped). -/
def decode_token (now : Int) (token : JwtToken) : Option TokenData :=
  match joseDecode now token SECRET_KEY ALGORITHM with
  | Except.error _ => none
  | Except.ok payload =>
    match payload.exp with
    | some e =>
      if pyTruthy e && decide (now > e) then none
      else some { user_id := payload.user_id, email := payload.email, role := payload.role }
    | none => some { user_id := payload.user_id, email := payload.email, role := payload.role }

end JWTHandler

/-- models/user.py: the users table row. -/
structure User where
  id : Int
  email : String
  password_hash : HashStr
  is_active : Bool
  role : String
deriving DecidableEq, Repr

/-- The users table with its autoincrement counter. SQLAlchemy's
query(...).first() is modelled by List.find? over the rows in order. -/
structure Db where
  users : List User
  nextId : Int
deriving DecidableEq, Repr

/-- db.query(User).filter(User.email == e).first(). -/
def findByEmail (db : Db) (e : String) : Option User :=
  db.users.find? (fun u => u.email == e)

/-- db.query(User).filter(User.id == i).first(). When the bound value is None
(payload missing user_id), SQLAlchemy renders `id IS NULL`, which matches no
row of a non-null primary-key column. -/
def findById (db : Db) (i : Option Int) : Option User :=
  match i with
  | none => none
  | some v => db.users.find? (fun u => u.id == v)

/-- Store invariant: the autoincrement counter is fresh, i.e. strictly above
every existing row id. -/
def Db.WF (db : Db) : Prop := ∀ u ∈ db.users, u.id < db.nextId

instance (db : Db) : Decidable db.WF := by
  unfold Db.WF; infer_instance

/-- schemas/auth.py UserCreate (role defaults to "user" at the boundary). -/
structure UserCreate where
  email : String
  password : String
  role : String
deriving DecidableEq, Repr

/-- schemas/auth.py UserLogin. -/
structure UserLogin where
  email : String
  password : String
deriving DecidableEq, Repr

/-- schemas/auth.py UserResponse. -/
structure UserResponse where
  id : Int
  email : String
  role : String
  is_active : Bool
deriving DecidableEq, Repr

/-- UserResponse.from_orm. -/
def UserResponse.from_orm (u : User) : UserResponse :=
  { id := u.id, email := u.email, role := u.role, is_active := u.is_active }

/-- schemas/auth.py Token. -/
structure Token where
  access_token : JwtToken
  token_type : String
  user : UserResponse
deriving DecidableEq, Repr

/-- Exceptions escaping the AuthService layer: ValidationError (with its
message), or a propagating passlib UnknownHashError (any non-ValidationError
exception, caught by the routes' `except Exception` arm). -/
inductive ServiceError where
  | validationError (message : String)
  | unknownHashError (message : String)
deriving DecidableEq, Repr

namespace AuthService

/-- AuthService.create_user: duplicate-email check, role check, hash, insert.
The session side effect (add/commit/refresh) is modelled by returning the
updated store with the created row (id assigned by autoincrement,
is_active defaulting to true per the column default). -/
def create_user (db : Db) (salt : String) (user_data : UserCreate) :
    Except ServiceError (Db × User) :=
  match findByEmail db user_data.email with
  | some _ => Except.error (ServiceError.validationError
      "Un utilisateur avec cet email existe déjà")
  | none =>
    if !(user_data.role == "user" || user_data.role == "admin") then
      Except.error (ServiceError.validationError "Le rôle doit être 'user' ou 'admin'")
    else
      let db_user : User :=
        { id := db.nextId, email := user_data.email,
          password_hash := JWTHandler.hash_password salt user_data.password,
          is_active := true, role := user_data.role }
      Except.ok ({ users := db.users ++ [db_user], nextId := db.nextId + 1 }, db_user)

/-- AuthService.login: lookup by email, verify password (an UnknownHashError
from passlib propagates uncaught), check is_active, then issue the token. -/
def login (db : Db) (now : Int) (login_data : UserLogin) : Except ServiceError Token :=
  match findByEmail db login_data.email with
  | none => Except.error (ServiceError.validationError "Email ou mot de passe incorrect")
  | some user =>
    match JWTHandler.verify_password login_data.password user.password_hash with
    | Except.error m => Except.error (ServiceError.unknownHashError m)
    | Except.ok ok =>
      if !ok then
        Except.error (ServiceError.validationError "Email ou mot de passe incorrect")
      else if !user.is_active then
        Except.error (ServiceError.validationError "Compte désactivé")
      else
        Except.ok { access_token :=
                      JWTHandler.create_access_token now user.id user.email user.role,
                    token_type := "bearer",
                    user := UserResponse.from_orm user }

/-- AuthService.get_current_user (resolve): decode the token, re-fetch the
live user row by the decoded user_id, and re-check is_active against the
store; the returned record is the store row, not the token claims. -/
def get_current_user (db : Db) (now : Int) (token : JwtToken) :
    Except ServiceError User :=
  match JWTHandler.decode_token now token with
  | none => Except.error (ServiceError.validationError "Token invalide ou expiré")
  | some payload =>
    match findById db payload.user_id with
    | none => Except.error (ServiceError.validationError "Utilisateur non trouvé")
    | some user =>
      if !user.is_active then
        Except.error (ServiceError.validationError "Compte désactivé")
      else
        Except.ok user

end AuthService

/-- fastapi.HTTPException as raised by the boundary layer. -/
structure HTTPException where
  status_code : Nat
  detail : String
deriving DecidableEq, Repr

/-- api/auth_routes.py register: ValidationError to 400, anything else to 500. -/
def route_register (db : Db) (salt : String) (user_data : UserCreate) :
    Except HTTPException (Db × User) :=
  match AuthService.create_user db salt user_data with
  | Except.ok r => Except.ok r
  | Except.error (ServiceError.validationError m) =>
      Except.error { status_code := 400, detail := m }
  | Except.error (ServiceError.unknownHashError _) =>
      Except.error { status_code := 500, detail := "Erreur lors de la création du compte" }

/-- api/auth_routes.py login: ValidationError to 401, anything else to 500. -/
def route_login (db : Db) (now : Int) (login_data : UserLogin) :
    Except HTTPException Token :=
  match AuthService.login db now login_data with
  | Except.ok t => Except.ok t
  | Except.error (ServiceError.validationError m) =>
      Except.error { status_code := 401, detail := m }
  | Except.error (ServiceError.unknownHashError _) =>
      Except.error { status_code := 500, detail := "Erreur lors de la connexion" }

/-- The three gates of the per-request access-control chain of
auth/dependencies.py, named for tracing which dependency functions ran. -/
inductive Gate where
  | authenticate
  | activeCheck
  | roleCheck
deriving DecidableEq, Repr

/-- The role gate wired onto a route: require_admin or require_user_or_admin. -/
inductive RoleGate where
  | admin
  | userOrAdmin
deriving DecidableEq, Repr

/-- dependencies.py get_current_user: HTTPBearer extraction (a missing or
non-Bearer Authorization header makes HTTPBearer itself raise 403
"Not authenticated" before the function body runs), then
AuthService.get_current_user, with every ValidationError mapped to 401. -/
def dep_get_current_user (db : Db) (now : Int) (credentials : Option JwtToken) :
    Except HTTPException User :=
  match credentials with
  | none => Except.error { status_code := 403, detail := "Not authenticated" }
  | some token =>
    match AuthService.get_current_user db now token with
    | Except.ok user => Except.ok user
    | Except.error (ServiceError.validationError m) =>
        Except.error { status_code := 401, detail := m }
    | Except.error (ServiceError.unknownHashError m) =>
        Except.error { status_code := 500, detail := m }

/-- dependencies.py get_current_active_user: 400 "Utilisateur inactif" if the
resolved user is inactive. -/
def dep_get_current_active_user (current_user : User) : Except HTTPException User :=
  if !current_user.is_active then
    Except.error { status_code := 400, detail := "Utilisateur inactif" }
  else Except.ok current_user

/-- dependencies.py require_admin: 403 unless role is admin. -/
def dep_require_admin (current_user : User) : Except HTTPException User :=
  if current_user.role != "admin" then
    Except.error { status_code := 403, detail := "Droits administrateur requis" }
  else Except.ok current_user

/-- dependencies.py require_user_or_admin: 403 unless role is user or admin. -/
def dep_require_user_or_admin (current_user : User) : Except HTTPException User :=
  if !(current_user.role == "user" || current_user.role == "admin") then
    Except.error { status_code := 403, detail := "Authentification requise" }
  else Except.ok current_user

/-- Dispatch of the configured role gate. -/
def roleGateRun : RoleGate → User → Except HTTPException User
  | RoleGate.admin, u => dep_require_admin u
  | RoleGate.userOrAdmin, u => dep_require_user_or_admin u

/-- FastAPI's resolution of the Depends chain on a protected route: the three
gates run in dependency order, each one only after the previous succeeded, and
the handler runs only after all gates pass. Returns the list of gates that
executed, the handler output when the handler was invoked (none otherwise),
and the response. -/
def runRequest (db : Db) (now : Int) (credentials : Option JwtToken)
    (g : RoleGate) (handler : User → String) :
    List Gate × Option String × Except HTTPException String :=
  match dep_get_current_user db now credentials with
  | Except.error e => ([Gate.authenticate], none, Except.error e)
  | Except.ok u =>
    match dep_get_current_active_user u with
    | Except.error e => ([Gate.authenticate, Gate.activeCheck], none, Except.error e)
    | Except.ok u2 =>
      match roleGateRun g u2 with
      | Except.error e =>
          ([Gate.authenticate, Gate.activeCheck, Gate.roleCheck], none, Except.error e)
      | Except.ok u3 =>
          ([Gate.authenticate, Gate.activeCheck, Gate.roleCheck],
           some (handler u3), Except.ok (handler u3))

/-- Helper: find? skips a block of elements on which the test fails. -/
theorem find_append_of_none {α : Type} (p : α → Bool) (l1 l2 : List α)
    (h : l1.find? p = none) : (l1 ++ l2).find? p = l2.find? p := by
  induction l1 with
  | nil => simp
  | cons a l ih =>
    cases hp : p a with
    | true => simp [List.find?, hp] at h
    | false =>
      simp only [List.cons_append, List.find?, hp] at h ⊢
      exact ih h

/-- C4: with the fixed shared secret and a clock fixed at issuance time t0,
decode(encode(user_id, email, role)) evaluated at any time T with
T ≤ t0 + 30 minutes returns a claim set whose user_id, email and role equal
the encoded values exactly, and evaluated at any T beyond t0 + 30 minutes
returns None. -/
theorem C4_round_trip (t0 T : Int) (uid : Int) (email role : String) :
    (T ≤ t0 + 1800 →
      JWTHandler.decode_token T (JWTHandler.create_access_token t0 uid email role) =
        some { user_id := some uid, email := some email, role := some role }) ∧
    (t0 + 1800 < T →
      JWTHandler.decode_token T (JWTHandler.create_access_token t0 uid email role) =
        none) := by
  unfold JWTHandler.decode_token JWTHandler.create_access_token joseDecode
  simp only [JWTHandler.ACCESS_TOKEN_EXPIRE_MINUTES, bne_self_eq_false,
    Bool.not_false, Bool.false_eq_true, if_false, pyTruthy]
  norm_num
  constructor
  · intro hT
    rw [if_neg (by omega)]
    simp only []
    rw [if_neg]
    simp only [Bool.and_eq_true, bne_iff_ne, decide_eq_true_eq, not_and]
    intro _
    omega
  · intro hT
    rw [if_pos (by omega)]

/-- Witness for C4 at t0 = 0, uid = 7, email "a@b.com", role "admin",
decoded at T = 100 (within 30 minutes) and T = 2000 (beyond). -/
theorem C4_round_trip_witness :
    JWTHandler.decode_token 100 (JWTHandler.create_access_token 0 7 "a@b.com" "admin") =
      some { user_id := some 7, email := some "a@b.com", role := some "admin" } ∧
    JWTHandler.decode_token 2000 (JWTHandler.create_access_token 0 7 "a@b.com" "admin") =
      none :=
  ⟨(C4_round_trip 0 100 7 "a@b.com" "admin").1 (by norm_num),
   (C4_round_trip 0 2000 7 "a@b.com" "admin").2 (by norm_num)⟩

/-- Helper: jose decode rejects any token whose exp claim is in the past,
whatever its structure, signature key and algorithm. -/
theorem joseDecode_expired (now : Int) (tok : JwtToken) (key alg : String) (e : Int)
    (hexp : tok.payload.exp = some e) (hpast : e < now) :
    ∃ err, joseDecode now tok key alg = Except.error err := by
  unfold joseDecode
  rw [hexp]
  split_ifs <;> first
    | exact ⟨_, rfl⟩
    | exact ⟨_, if_pos hpast⟩

/-- C5: every token whose exp claim is earlier than the current time fails
decode_token with None, whether or not its signature verifies and whether or
not it was produced by create_access_token. -/
theorem C5_expired_always_rejected (T : Int) (tok : JwtToken) (e : Int)
    (hexp : tok.payload.exp = some e) (hpast : e < T) :
    JWTHandler.decode_token T tok = none := by
  obtain ⟨err, herr⟩ :=
    joseDecode_expired T tok JWTHandler.SECRET_KEY JWTHandler.ALGORITHM e hexp hpast
  unfold JWTHandler.decode_token
  rw [herr]

/-- Witness for C5: the token encoded at t0 = 0 (exp = 1800) is rejected at
T = 5000, although its signature verifies. -/
theorem C5_expired_always_rejected_witness :
    JWTHandler.decode_token 5000 (JWTHandler.create_access_token 0 1 "x@y.com" "user") =
      none :=
  C5_expired_always_rejected 5000 _ 1800 (by norm_num [JWTHandler.create_access_token,
    JWTHandler.ACCESS_TOKEN_EXPIRE_MINUTES]) (by norm_num)

/-- C9: a validly signed, unexpired token decodes to a claim set holding
exactly the three identity fields of its payload (iat and exp dropped), and
a missing user_id claim decodes to user_id = None, after which resolve fails
with the user-not-found ValidationError, not the invalid-token one. -/
theorem C9_decode_projects_identity (T : Int) (tok : JwtToken) (db : Db)
    (hwf : tok.wellFormed = true)
    (halg : tok.alg = JWTHandler.ALGORITHM)
    (hsec : tok.secret = JWTHandler.SECRET_KEY)
    (hfresh : ∀ e, tok.payload.exp = some e → T ≤ e) :
    JWTHandler.decode_token T tok =
      some { user_id := tok.payload.user_id, email := tok.payload.email,
             role := tok.payload.role } ∧
    (tok.payload.user_id = none →
      AuthService.get_current_user db T tok =
        Except.error (ServiceError.validationError "Utilisateur non trouvé")) := by
  have hdec : JWTHandler.decode_token T tok =
      some { user_id := tok.payload.user_id, email := tok.payload.email,
             role := tok.payload.role } := by
    unfold JWTHandler.decode_token joseDecode
    rw [hwf, halg, hsec]
    cases hpe : tok.payload.exp with
    | none => simp [hpe]
    | some e =>
      have h1 : ¬ (e < T) := not_lt.mpr (hfresh e hpe)
      have h2 : ¬ (T > e) := not_lt.mpr (hfresh e hpe)
      simp [hpe, h1, h2]
  refine ⟨hdec, fun hnone => ?_⟩
  unfold AuthService.get_current_user
  rw [hdec, hnone]
  rfl

/-- Witness for C9: a validly signed token with no user_id, iat or exp claims
decodes to the three-key claim set with user_id = None, and resolve on the
empty store fails with the user-not-found error. -/
theorem C9_decode_projects_identity_witness :
    JWTHandler.decode_token 0
        ⟨⟨none, some "a@b.com", some "user", none, none⟩,
          JWTHandler.SECRET_KEY, JWTHandler.ALGORITHM, true⟩ =
      some { user_id := none, email := some "a@b.com", role := some "user" } ∧
    ((⟨⟨none, some "a@b.com", some "user", none, none⟩,
        JWTHandler.SECRET_KEY, JWTHandler.ALGORITHM, true⟩ : JwtToken).payload.user_id =
        none →
      AuthService.get_current_user ⟨[], 1⟩ 0
          ⟨⟨none, some "a@b.com", some "user", none, none⟩,
            JWTHandler.SECRET_KEY, JWTHandler.ALGORITHM, true⟩ =
        Except.error (ServiceError.validationError "Utilisateur non trouvé")) :=
  C9_decode_projects_identity 0
    ⟨⟨none, some "a@b.com", some "user", none, none⟩,
      JWTHandler.SECRET_KEY, JWTHandler.ALGORITHM, true⟩ ⟨[], 1⟩
    rfl rfl rfl (by simp)

/-- C1: whenever the token decodes, resolve returns exactly the User record
found in the store for the decoded user_id — role and is_active are the store
row's, not the token claims' — and when that record has is_active = false,
resolve fails with the disabled-account ValidationError even though the token
decoded successfully (signature valid, not expired). -/
theorem C1_resolve_returns_live_user (db : Db) (now : Int) (tok : JwtToken)
    (p : TokenData) (u : User)
    (hdec : JWTHandler.decode_token now tok = some p)
    (hfind : findById db p.user_id = some u) :
    (u.is_active = true → AuthService.get_current_user db now tok = Except.ok u) ∧
    (u.is_active = false →
      AuthService.get_current_user db now tok =
        Except.error (ServiceError.validationError "Compte désactivé")) := by
  unfold AuthService.get_current_user
  rw [hdec]
  constructor <;> intro h <;> simp [hfind, h]

/-- Witness for C1: a token carrying the stale role claim "admin" resolves to
the store row whose role is "user" (live state wins), and the same token for a
store row deactivated in the meantime fails with the disabled-account error. -/
theorem C1_resolve_returns_live_user_witness :
    AuthService.get_current_user
        ⟨[{ id := 1, email := "a@b.com", password_hash := HashStr.bcrypt "s" "pw",
            is_active := true, role := "user" }], 2⟩ 10
        (JWTHandler.create_access_token 0 1 "a@b.com" "admin") =
      Except.ok { id := 1, email := "a@b.com", password_hash := HashStr.bcrypt "s" "pw",
                  is_active := true, role := "user" } ∧
    AuthService.get_current_user
        ⟨[{ id := 1, email := "a@b.com", password_hash := HashStr.bcrypt "s" "pw",
            is_active := false, role := "user" }], 2⟩ 10
        (JWTHandler.create_access_token 0 1 "a@b.com" "admin") =
      Except.error (ServiceError.validationError "Compte désactivé") :=
  ⟨(C1_resolve_returns_live_user
      ⟨[{ id := 1, email := "a@b.com", password_hash := HashStr.bcrypt "s" "pw",
          is_active := true, role := "user" }], 2⟩ 10
      (JWTHandler.create_access_token 0 1 "a@b.com" "admin")
      { user_id := some 1, email := some "a@b.com", role := some "admin" }
      { id := 1, email := "a@b.com", password_hash := HashStr.bcrypt "s" "pw",
        is_active := true, role := "user" }
      rfl rfl).1 rfl,
   (C1_resolve_returns_live_user
      ⟨[{ id := 1, email := "a@b.com", password_hash := HashStr.bcrypt "s" "pw",
          is_active := false, role := "user" }], 2⟩ 10
      (JWTHandler.create_access_token 0 1 "a@b.com" "admin")
      { user_id := some 1, email := some "a@b.com", role := some "admin" }
      { id := 1, email := "a@b.com", password_hash := HashStr.bcrypt "s" "pw",
        is_active := false, role := "user" }
      rfl rfl).2 rfl⟩

/-- C2: a login for a nonexistent email and a login for an existing email with
a password that fails verification both reach the boundary as a
ValidationError with the identical message, and the login route maps both to
the identical status 401 — the visible error does not reveal whether the email
exists. -/
theorem C2_login_failure_indistinguishable (db : Db) (now1 now2 : Int)
    (l1 l2 : UserLogin) (u : User)
    (h1 : findByEmail db l1.email = none)
    (h2 : findByEmail db l2.email = some u)
    (h3 : JWTHandler.verify_password l2.password u.password_hash = Except.ok false) :
    route_login db now1 l1 =
      Except.error { status_code := 401, detail := "Email ou mot de passe incorrect" } ∧
    route_login db now2 l2 =
      Except.error { status_code := 401, detail := "Email ou mot de passe incorrect" } := by
  refine ⟨?_, ?_⟩ <;> simp [route_login, AuthService.login, h1, h2, h3]

/-- Witness for C2: one store with the single user a@b.com; a login for the
absent x@y.com and a login for a@b.com with a wrong password produce the
identical 401 response. -/
theorem C2_login_failure_indistinguishable_witness :
    route_login
        ⟨[{ id := 1, email := "a@b.com", password_hash := HashStr.bcrypt "s" "pw",
            is_active := true, role := "user" }], 2⟩ 0 ⟨"x@y.com", "whatever"⟩ =
      Except.error { status_code := 401, detail := "Email ou mot de passe incorrect" } ∧
    route_login
        ⟨[{ id := 1, email := "a@b.com", password_hash := HashStr.bcrypt "s" "pw",
            is_active := true, role := "user" }], 2⟩ 0 ⟨"a@b.com", "wrong"⟩ =
      Except.error { status_code := 401, detail := "Email ou mot de passe incorrect" } :=
  C2_login_failure_indistinguishable _ 0 0 _ _
    { id := 1, email := "a@b.com", password_hash := HashStr.bcrypt "s" "pw",
      is_active := true, role := "user" }
    rfl rfl rfl

/-- Counterexample to C6 as stated: on a hash string that is not a well-formed
output of the Password Hasher, verify_password raises passlib's
UnknownHashError (the code has no try/except around pwd_context.verify), so at
the concrete input ("abc", "not-a-hash") it does not return false — it throws. -/
theorem C6_counterexample :
    JWTHandler.verify_password "abc" (HashStr.raw "not-a-hash") =
      Except.error "hash could not be identified" ∧
    JWTHandler.verify_password "abc" (HashStr.raw "not-a-hash") ≠
      Except.ok false :=
  ⟨rfl, fun h => Except.noConfusion h⟩

/-- C6 amended: for every plaintext and every well-formed hash, verify_password
returns a boolean that is true iff the plaintext matches the hash, and raises
no exception; but on a malformed hash it raises passlib's UnknownHashError
instead of returning false. -/
theorem C6_verify_totality_amended :
    (∀ plain salt pw,
      JWTHandler.verify_password plain (HashStr.bcrypt salt pw) =
        Except.ok (plain == pw)) ∧
    (∀ plain s,
      JWTHandler.verify_password plain (HashStr.raw s) =
        Except.error "hash could not be identified") :=
  ⟨fun _ _ _ => rfl, fun _ _ => rfl⟩

/-- C10: every user record produced by create_user has role "user" or "admin"
(the role is validated before the insert), and consequently the 403 branch of
require_user_or_admin never fires on such a record: the any-authenticated-role
gate accepts it. -/
theorem C10_register_role_invariant (db : Db) (salt : String) (uc : UserCreate)
    (db2 : Db) (nu : User)
    (hok : AuthService.create_user db salt uc = Except.ok (db2, nu)) :
    (nu.role = "user" ∨ nu.role = "admin") ∧
    dep_require_user_or_admin nu = Except.ok nu := by
  unfold AuthService.create_user at hok
  split at hok
  · exact Except.noConfusion hok
  · split at hok
    · exact Except.noConfusion hok
    · rename_i hrole
      rw [Except.ok.injEq, Prod.mk.injEq] at hok
      obtain ⟨-, hnu⟩ := hok
      subst hnu
      simp only [Bool.not_eq_true', Bool.not_eq_false, Bool.or_eq_true,
        beq_iff_eq] at hrole
      refine ⟨hrole, ?_⟩
      unfold dep_require_user_or_admin
      rcases hrole with h | h <;> simp [h]

/-- Witness for C10: registering a@b.com with the default role on the empty
store yields a row with role "user" that require_user_or_admin accepts. -/
theorem C10_register_role_invariant_witness :
    (({ id := 1, email := "a@b.com", password_hash := HashStr.bcrypt "s" "pass",
        is_active := true, role := "user" } : User).role = "user" ∨
     ({ id := 1, email := "a@b.com", password_hash := HashStr.bcrypt "s" "pass",
        is_active := true, role := "user" } : User).role = "admin") ∧
    dep_require_user_or_admin
        { id := 1, email := "a@b.com", password_hash := HashStr.bcrypt "s" "pass",
          is_active := true, role := "user" } =
      Except.ok
        { id := 1, email := "a@b.com", password_hash := HashStr.bcrypt "s" "pass",
          is_active := true, role := "user" } :=
  C10_register_role_invariant ⟨[], 1⟩ "s" ⟨"a@b.com", "pass", "user"⟩
    ⟨[{ id := 1, email := "a@b.com", password_hash := HashStr.bcrypt "s" "pass",
        is_active := true, role := "user" }], 2⟩
    { id := 1, email := "a@b.com", password_hash := HashStr.bcrypt "s" "pass",
      is_active := true, role := "user" }
    rfl

/-- C8: for a single request, the gates run strictly in the order
authenticate, active-check, role-check (the executed-gate trace is always a
prefix of that order); the chain short-circuits on the first failure, so no
handler runs after a rejection; when authentication rejects, the trace is
exactly [authenticate], so the role predicate is never evaluated; and the
handler runs exactly when all three gates passed. -/
theorem C8_gate_chain_order (db : Db) (now : Int) (cred : Option JwtToken)
    (g : RoleGate) (h : User → String) :
    (∃ n, (runRequest db now cred g h).1 =
      [Gate.authenticate, Gate.activeCheck, Gate.roleCheck].take n) ∧
    (∀ e, (runRequest db now cred g h).2.2 = Except.error e →
      (runRequest db now cred g h).2.1 = none) ∧
    (∀ e, dep_get_current_user db now cred = Except.error e →
      (runRequest db now cred g h).1 = [Gate.authenticate] ∧
      Gate.roleCheck ∉ (runRequest db now cred g h).1) ∧
    (∀ s, (runRequest db now cred g h).2.2 = Except.ok s →
      (runRequest db now cred g h).1 =
        [Gate.authenticate, Gate.activeCheck, Gate.roleCheck] ∧
      (runRequest db now cred g h).2.1 = some s) := by
  rcases h1 : dep_get_current_user db now cred with e1 | u1
  · have hr : runRequest db now cred g h =
        ([Gate.authenticate], none, Except.error e1) := by
      simp only [runRequest, h1]
    rw [hr]
    exact ⟨⟨1, rfl⟩, fun e _ => rfl, fun e _ => ⟨rfl, by simp⟩,
      fun s hs => Except.noConfusion hs⟩
  · rcases h2 : dep_get_current_active_user u1 with e2 | u2
    · have hr : runRequest db now cred g h =
          ([Gate.authenticate, Gate.activeCheck], none, Except.error e2) := by
        simp only [runRequest, h1, h2]
      rw [hr]
      exact ⟨⟨2, rfl⟩, fun e _ => rfl, fun e he => Except.noConfusion he,
        fun s hs => Except.noConfusion hs⟩
    · rcases h3 : roleGateRun g u2 with e3 | u3
      · have hr : runRequest db now cred g h =
            ([Gate.authenticate, Gate.activeCheck, Gate.roleCheck], none,
              Except.error e3) := by
          simp only [runRequest, h1, h2, h3]
        rw [hr]
        exact ⟨⟨3, rfl⟩, fun e _ => rfl, fun e he => Except.noConfusion he,
          fun s hs => Except.noConfusion hs⟩
      · have hr : runRequest db now cred g h =
            ([Gate.authenticate, Gate.activeCheck, Gate.roleCheck],
              some (h u3), Except.ok (h u3)) := by
          simp only [runRequest, h1, h2, h3]
        rw [hr]
        refine ⟨⟨3, rfl⟩, fun e he => Except.noConfusion he,
          fun e he => Except.noConfusion he, fun s hs => ⟨rfl, ?_⟩⟩
        injection hs with hsv; rw [hsv]

/-- Witness for C8: on the empty store with no credential, authentication
rejects, the trace is exactly [authenticate] and the role gate never ran. -/
theorem C8_gate_chain_order_witness :
    (runRequest ⟨[], 1⟩ 0 none RoleGate.admin (fun _ => "ok")).1 =
      [Gate.authenticate] ∧
    Gate.roleCheck ∉ (runRequest ⟨[], 1⟩ 0 none RoleGate.admin (fun _ => "ok")).1 :=
  (C8_gate_chain_order ⟨[], 1⟩ 0 none RoleGate.admin (fun _ => "ok")).2.2.1
    { status_code := 403, detail := "Not authenticated" } rfl

/-- Counterexample to C3 as stated: a request bearing a valid token for the
deactivated user a@b.com is rejected by the chain, but the response status is
401, not 400 — the disabled-account ValidationError raised inside
AuthService.get_current_user is caught by the get_current_user dependency,
which maps every ValidationError to 401. -/
theorem C3_counterexample :
    (runRequest
        ⟨[{ id := 1, email := "a@b.com", password_hash := HashStr.bcrypt "s" "pw",
            is_active := false, role := "user" }], 2⟩ 10
        (some (JWTHandler.create_access_token 0 1 "a@b.com" "user"))
        RoleGate.userOrAdmin (fun _ => "ok")).2.2 =
      Except.error { status_code := 401, detail := "Compte désactivé" } ∧
    (401 : Nat) ≠ 400 :=
  ⟨rfl, by decide⟩

/-- C3 amended: for every request bearing a token that decodes to a user_id
whose store record has is_active = false, the chain rejects the request before
any handler runs, with the disabled-account message — but the boundary status
is 401, not 400: the active check inside resolve fires during the
authenticate gate, whose handler maps every ValidationError to 401, and the
400 branch of get_current_active_user is unreachable for such requests. -/
theorem C3_inactive_rejected_before_handler (db : Db) (now : Int)
    (tok : JwtToken) (p : TokenData) (u : User) (g : RoleGate)
    (h : User → String)
    (hdec : JWTHandler.decode_token now tok = some p)
    (hfind : findById db p.user_id = some u)
    (hinactive : u.is_active = false) :
    runRequest db now (some tok) g h =
      ([Gate.authenticate], none,
        Except.error { status_code := 401, detail := "Compte désactivé" }) := by
  have hsvc : AuthService.get_current_user db now tok =
      Except.error (ServiceError.validationError "Compte désactivé") := by
    unfold AuthService.get_current_user
    rw [hdec]
    simp [hfind, hinactive]
  simp only [runRequest, dep_get_current_user, hsvc]

/-- Witness for C3 amended: the deactivated user a@b.com with a valid token;
the chain stops at the authenticate gate with 401 "Compte désactivé" and the
handler never runs. -/
theorem C3_inactive_rejected_before_handler_witness :
    runRequest
        ⟨[{ id := 1, email := "a@b.com", password_hash := HashStr.bcrypt "s" "pw",
            is_active := false, role := "user" }], 2⟩ 10
        (some (JWTHandler.create_access_token 0 1 "a@b.com" "user"))
        RoleGate.userOrAdmin (fun _ => "ok") =
      ([Gate.authenticate], none,
        Except.error { status_code := 401, detail := "Compte désactivé" }) :=
  C3_inactive_rejected_before_handler
    ⟨[{ id := 1, email := "a@b.com", password_hash := HashStr.bcrypt "s" "pw",
        is_active := false, role := "user" }], 2⟩ 10
    (JWTHandler.create_access_token 0 1 "a@b.com" "user")
    { user_id := some 1, email := some "a@b.com", role := some "user" }
    { id := 1, email := "a@b.com", password_hash := HashStr.bcrypt "s" "pw",
      is_active := false, role := "user" }
    RoleGate.userOrAdmin (fun _ => "ok") rfl rfl rfl

/-- Helper: a freshly encoded token decodes, at any time up to 30 minutes
after issuance, to exactly the encoded identity claims. -/
theorem decode_create_within (t0 T : Int) (uid : Int) (em ro : String)
    (hT : T ≤ t0 + 1800) :
    JWTHandler.decode_token T (JWTHandler.create_access_token t0 uid em ro) =
      some { user_id := some uid, email := some em, role := some ro } := by
  unfold JWTHandler.decode_token JWTHandler.create_access_token joseDecode
  simp only [JWTHandler.ACCESS_TOKEN_EXPIRE_MINUTES, bne_self_eq_false,
    Bool.not_false, Bool.false_eq_true, if_false, pyTruthy]
  norm_num
  rw [if_neg (by omega)]
  simp only []
  rw [if_neg]
  simp only [Bool.and_eq_true, bne_iff_ne, decide_eq_true_eq, not_and]
  intro _
  omega

/-- The user row that create_user inserts for a fresh email with the default
role "user" (id from the autoincrement counter, is_active defaulting to
true), as computed by AuthService.create_user's success branch. -/
def registeredUser (db : Db) (salt email pw : String) : User :=
  { id := db.nextId, email := email,
    password_hash := JWTHandler.hash_password salt pw,
    is_active := true, role := "user" }

/-- The store after that insert. -/
def registeredDb (db : Db) (salt email pw : String) : Db :=
  { users := db.users ++ [registeredUser db salt email pw],
    nextId := db.nextId + 1 }

/-- C7: on a well-formed store with no user for the given email, create_user
with the default role succeeds and inserts an active user; login with the same
credentials then succeeds and returns a token; and resolve applied to that
token, at any time within the 30-minute lifetime, returns the created user,
whose email is the registered one and whose role is "user". -/
theorem C7_register_login_resolve (db : Db) (salt email pw : String)
    (now now2 : Int)
    (hwf : db.WF)
    (hfree : findByEmail db email = none)
    (_hlen : 4 ≤ pw.length)
    (hT : now2 ≤ now + 1800) :
    ∃ db2 nu tok,
      AuthService.create_user db salt ⟨email, pw, "user"⟩ = Except.ok (db2, nu) ∧
      nu.is_active = true ∧ nu.email = email ∧ nu.role = "user" ∧
      AuthService.login db2 now ⟨email, pw⟩ = Except.ok tok ∧
      AuthService.get_current_user db2 now2 tok.access_token = Except.ok nu := by
  refine ⟨registeredDb db salt email pw, registeredUser db salt email pw,
    { access_token := JWTHandler.create_access_token now db.nextId email "user",
      token_type := "bearer",
      user := UserResponse.from_orm (registeredUser db salt email pw) },
    ?_, rfl, rfl, rfl, ?_, ?_⟩
  · simp only [AuthService.create_user, hfree]
    rfl
  · have hfe2 : findByEmail (registeredDb db salt email pw) email =
        some (registeredUser db salt email pw) := by
      unfold findByEmail at hfree ⊢
      unfold registeredDb
      rw [find_append_of_none _ _ _ hfree]
      simp [registeredUser, List.find?]
    simp only [AuthService.login, hfe2]
    simp [JWTHandler.verify_password, cryptContextVerify,
      JWTHandler.hash_password, cryptContextHash, registeredUser,
      UserResponse.from_orm]
  · have hfid : findById (registeredDb db salt email pw) (some db.nextId) =
        some (registeredUser db salt email pw) := by
      unfold findById registeredDb
      have hnone : db.users.find? (fun u => u.id == db.nextId) = none := by
        rw [List.find?_eq_none]
        intro x hx
        have hlt := hwf x hx
        simp only [beq_iff_eq]
        omega
      show List.find? (fun u => u.id == db.nextId)
          (db.users ++ [registeredUser db salt email pw]) =
        some (registeredUser db salt email pw)
      rw [find_append_of_none _ _ _ hnone]
      simp [registeredUser, List.find?]
    simp only [AuthService.get_current_user,
      decode_create_within now now2 db.nextId email "user" hT]
    simp only [hfid]
    simp [registeredUser]

/-- Witness for C7: registering a@b.com with password "pass" on the empty
store, logging in at time 0 and resolving the token at time 10. -/
theorem C7_register_login_resolve_witness :
    ∃ db2 nu tok,
      AuthService.create_user ⟨[], 1⟩ "s" ⟨"a@b.com", "pass", "user"⟩ =
        Except.ok (db2, nu) ∧
      nu.is_active = true ∧ nu.email = "a@b.com" ∧ nu.role = "user" ∧
      AuthService.login db2 0 ⟨"a@b.com", "pass"⟩ = Except.ok tok ∧
      AuthService.get_current_user db2 10 tok.access_token = Except.ok nu :=
  C7_register_login_resolve ⟨[], 1⟩ "s" "a@b.com" "pass" 0 10
    (fun u hu => absurd hu (List.not_mem_nil u)) rfl (by decide) (by norm_num)
